import Mathlib

/-!
Verification development for `src/cloudflare-worker.js` (MorganMLGman/CF_TelegramWorker).

The source file contains two revisions of the worker separated by a marker; the
second revision (the one all claim line references point into) supersedes the
first and is the code embedded here: the `fetch` handler with the GET health
check, the JSON repair passes, the Oracle subscription-confirmation handling,
`formatAlarmMessage`, and `sendToTelegram`.

Modelling conventions (a shallow embedding of the JavaScript):
* JSON values are the inductive `Json`.  JavaScript numbers are modelled as
  exact (unreduced) fractions `JsNum` rather than IEEE doubles; every concrete
  number appearing in the claims is an exact decimal on which the two agree.
* `undefined` only arises from property access; property access is modelled by
  `Option Json` (`none` = `undefined`).
* JavaScript exceptions are modelled with `Except String`; code points that
  cannot throw are plain functions.
* String operations count Unicode code points where JavaScript counts UTF-16
  code units; no claim distinguishes the two.
* The outbound `fetch` collaborator is a function argument
  `http : OutboundCall → Except String HttpResponse`; `Except.error` models a
  rejected promise (network failure), `HttpResponse.ok` models `response.ok`
  (status in the 2xx range).  The handler returns, next to its response, the
  list of outbound calls it performed.
-/

/-- JavaScript numbers, modelled as exact fractions `n / d` with `d > 0`.
The representation is not reduced; all operations used by the worker
(`parseFloat`, `toFixed(1)`, truthiness) are implemented on it directly. -/
structure JsNum where
  n : Int
  d : Nat
deriving DecidableEq

/-- Parsed JSON values, the output domain of `JSON.parse`. -/
inductive Json where
  | null : Json
  | bool (b : Bool) : Json
  | num (q : JsNum) : Json
  | str (s : String) : Json
  | arr (xs : List Json) : Json
  | obj (fields : List (String × Json)) : Json

/-- JavaScript truthiness of a JSON value: `null`, `false`, `0`, and the empty
string are falsy; every array and object (including empty ones) is truthy.
(`NaN` and `undefined` cannot occur as a `Json`.) -/
def jsTruthy : Json → Bool
  | Json.null => false
  | Json.bool b => b
  | Json.num q => decide (q.n ≠ 0)
  | Json.str s => decide (s ≠ "")
  | Json.arr _ => true
  | Json.obj _ => true

/-- Last binding for a key in an object's field list: JavaScript object
construction from JSON source lets a later duplicate key overwrite the value. -/
def lookupLast (fields : List (String × Json)) (k : String) : Option Json :=
  fields.foldl (fun acc p => if p.1 = k then some p.2 else acc) none

/-- Property access `v[k]` / `v?.[k]` for the keys the worker reads:
`undefined` (`none`) unless `v` is an object carrying the key.  (The worker
only ever reads named alarm fields, which value-typed primitives, arrays and
strings do not have.) -/
def getMember (v : Json) (k : String) : Option Json :=
  match v with
  | Json.obj fields => lookupLast fields k
  | _ => none

/-- The JavaScript `||` idiom `v?.k || dflt`: the property value when it is
truthy, the default otherwise (also when the property is `undefined`). -/
def jsOr (o : Option Json) (dflt : Json) : Json :=
  match o with
  | some v => if jsTruthy v then v else dflt
  | none => dflt

/-- The `.length` property as read by the worker: defined for strings and
arrays, `undefined` (`none`) otherwise (a comparison `undefined > 200` is
false in JavaScript). -/
def jsLength : Json → Option Nat
  | Json.str s => some s.length
  | Json.arr xs => some xs.length
  | _ => none

/-- `s.substring(0, k)` (and `.take` for the 300-character raw dump). -/
def takeStr (s : String) (k : Nat) : String :=
  String.mk (s.data.take k)

/-- Decimal digits of a natural number (base 10), via `Nat.repr`. -/
def natRepr (m : Nat) : String := Nat.repr m

/-- `ToString` for a modelled number.  JavaScript prints doubles in their
shortest round-tripping decimal form; for the exact decimal fractions produced
by the embedded parsers this is the terminating decimal expansion computed
here (exponent notation for extreme magnitudes is not modelled; no claim
exercises it). -/
def numToString (q : JsNum) : String :=
  let m := q.n.natAbs
  let core :=
    match (List.range 41).find? (fun k => (m * 10 ^ k) % q.d = 0) with
    | some k =>
      let M := (m * 10 ^ k) / q.d
      if k = 0 then natRepr M
      else
        let frac := natRepr (M % 10 ^ k)
        let pad := String.mk (List.replicate (k - frac.length) '0')
        natRepr (M / 10 ^ k) ++ "." ++ pad ++ frac
    | none => natRepr (m / q.d)
  if q.n < 0 then "-" ++ core else core

mutual

/-- Elements inside `Array.prototype.toString` (a comma join): `null` (and
`undefined`) print as the empty string, other values as their `ToString`. -/
def jsElemToString : Json → String
  | Json.null => ""
  | Json.bool b => cond b "true" "false"
  | Json.num q => numToString q
  | Json.str s => s
  | Json.arr xs => jsArrToString xs
  | Json.obj _ => "[object Object]"

/-- `Array.prototype.toString`: elements joined with commas. -/
def jsArrToString : List Json → String
  | [] => ""
  | [x] => jsElemToString x
  | x :: y :: xs => jsElemToString x ++ "," ++ jsArrToString (y :: xs)

end

/-- JavaScript `ToString` as used by template literals in the worker. -/
def jsToString : Json → String
  | Json.null => "null"
  | Json.bool b => cond b "true" "false"
  | Json.num q => numToString q
  | Json.str s => s
  | Json.arr xs => jsArrToString xs
  | Json.obj _ => "[object Object]"

/-- `JSON.stringify` escaping of one string character. -/
def escChar (c : Char) : String :=
  if c = '"' then "\\\""
  else if c = '\\' then "\\\\"
  else if c = '\n' then "\\n"
  else if c = '\r' then "\\r"
  else if c = '\t' then "\\t"
  else if c = '\x08' then "\\b"
  else if c = '\x0c' then "\\f"
  else if c.toNat < 0x20 then
    "\\u00" ++ natRepr (c.toNat / 16) ++ natRepr (c.toNat % 16)
  else String.singleton c

/-- `JSON.stringify` of a string value. -/
def quoteStr (s : String) : String :=
  "\"" ++ (s.data.map escChar).foldl (fun a b => a ++ b) "" ++ "\""

mutual

/-- `JSON.stringify` of a parsed JSON value (used for the `Raw:` dump in the
renderer's fallback message and for the Telegram payload body). -/
def stringifyJson : Json → String
  | Json.null => "null"
  | Json.bool b => cond b "true" "false"
  | Json.num q => numToString q
  | Json.str s => quoteStr s
  | Json.arr xs => "[" ++ stringifyList xs ++ "]"
  | Json.obj fs => "\x7b" ++ stringifyFields fs ++ "\x7d"

/-- Comma-joined `JSON.stringify` of array elements. -/
def stringifyList : List Json → String
  | [] => ""
  | [x] => stringifyJson x
  | x :: y :: xs => stringifyJson x ++ "," ++ stringifyList (y :: xs)

/-- Comma-joined `JSON.stringify` of object members. -/
def stringifyFields : List (String × Json) → String
  | [] => ""
  | [(k, v)] => quoteStr k ++ ":" ++ stringifyJson v
  | (k, v) :: f :: fs => quoteStr k ++ ":" ++ stringifyJson v ++ "," ++ stringifyFields (f :: fs)

end

/-- ASCII decimal digit test. -/
def isDig (c : Char) : Bool := decide ('0' ≤ c) && decide (c ≤ '9')

/-- Digit list to natural number (most significant first). -/
def digitsToNat (ds : List Char) : Nat :=
  ds.foldl (fun acc c => acc * 10 + (c.toNat - '0'.toNat)) 0

/-- Whitespace skipped by `parseFloat` (the common ASCII forms; exotic Unicode
space separators are not modelled, no claim uses them). -/
def isFloatWs (c : Char) : Bool :=
  c = ' ' || c = '\t' || c = '\n' || c = '\r' || c = '\x0b' || c = '\x0c'

/-- `parseFloat(s)`: skip leading whitespace, read an optional sign, then the
longest prefix of the form `digits [. digits] [e|E [sign] digits]`; `none`
models `NaN` (no digit found).  `Infinity` literals are not modelled (the
numbers are exact fractions, and no claim feeds the worker an `Infinity`). -/
def parseFloatQ (s : String) : Option JsNum :=
  let cs := s.data.dropWhile isFloatWs
  let (neg, cs1) :=
    match cs with
    | '-' :: rest => (true, rest)
    | '+' :: rest => (false, rest)
    | _ => (false, cs)
  let ip := cs1.takeWhile isDig
  let cs2 := cs1.dropWhile isDig
  let (fp, cs3) :=
    match cs2 with
    | '.' :: rest => (rest.takeWhile isDig, rest.dropWhile isDig)
    | _ => ([], cs2)
  if ip.isEmpty && fp.isEmpty then none
  else
    let mantN : Int := Int.ofNat (digitsToNat (ip ++ fp))
    let mantD : Nat := 10 ^ fp.length
    let expo : Int :=
      match cs3 with
      | 'e' :: rest => readExpo rest
      | 'E' :: rest => readExpo rest
      | _ => 0
    let signed : Int := if neg then -mantN else mantN
    if 0 ≤ expo then some ⟨signed * (10 ^ expo.toNat : Nat), mantD⟩
    else some ⟨signed, mantD * 10 ^ (-expo).toNat⟩
where
  /-- The optional exponent suffix: sign and at least one digit, else 0. -/
  readExpo (cs : List Char) : Int :=
    let (eneg, cs1) :=
      match cs with
      | '-' :: rest => (true, rest)
      | '+' :: rest => (false, rest)
      | _ => (false, cs)
    let ds := cs1.takeWhile isDig
    if ds.isEmpty then 0
    else if eneg then -(Int.ofNat (digitsToNat ds)) else Int.ofNat (digitsToNat ds)

/-- `x.toFixed(1)`: the integer `n` closest to `10 * x`, ties toward `+∞`
(ECMA-262 picks the larger candidate), printed as `n / 10` with one decimal.
For `q = a / d` this is `⌊(20 a + d) / (2 d)⌋`. -/
def toFixed1 (q : JsNum) : String :=
  let n : Int := Int.fdiv (20 * q.n + Int.ofNat q.d) (2 * Int.ofNat q.d)
  let fmt : Nat → String := fun m => natRepr (m / 10) ++ "." ++ natRepr (m % 10)
  if n < 0 then "-" ++ fmt (-n).toNat else fmt n.toNat

/-- Is `pat` a prefix of `cs`? -/
def litAtHead : List Char → List Char → Bool
  | [], _ => true
  | _ :: _, [] => false
  | p :: ps, c :: cs => p = c && litAtHead ps cs

/-- Does `cs` contain `pat` as a contiguous run (JavaScript
`String.prototype.includes`, case-sensitive)? -/
def containsSub (pat : List Char) : List Char → Bool
  | [] => litAtHead pat []
  | c :: cs => litAtHead pat (c :: cs) || containsSub pat cs

/-- JSON whitespace (RFC 8259 / `JSON.parse`): space, tab, newline, return. -/
def isJsonWs (c : Char) : Bool :=
  c = ' ' || c = '\t' || c = '\n' || c = '\r'

/-- Skip JSON whitespace. -/
def skipWs (cs : List Char) : List Char := cs.dropWhile isJsonWs

/-- Parse error message used where V8 reports an unexpected character.  The
embedding abstracts V8's exact diagnostic text (position, offending token);
the claims depend only on which parse attempt's message is surfaced. -/
def tokErr : String := "Unexpected token in JSON"

/-- Parse error message for running out of input, as V8 words it. -/
def eofErr : String := "Unexpected end of JSON input"

/-- Hexadecimal digit value. -/
def hexVal (c : Char) : Option Nat :=
  if isDig c then some (c.toNat - '0'.toNat)
  else if decide ('a' ≤ c) && decide (c ≤ 'f') then some (c.toNat - 'a'.toNat + 10)
  else if decide ('A' ≤ c) && decide (c ≤ 'F') then some (c.toNat - 'A'.toNat + 10)
  else none

/-- One decoded character of a JSON string literal (anything but the closing
quote): a backslash escape, a rejected raw control character, or a plain
character.  `\uXXXX` escapes decode via `Char.ofNat` (surrogate-pair
recombination is outside the model; no claim uses non-BMP escapes). -/
def strChar (c : Char) (rest : List Char) : Except String (Char × List Char) :=
  if c = '\\' then
    match rest with
    | [] => Except.error eofErr
    | e :: rest2 =>
      if e = '"' then Except.ok ('"', rest2)
      else if e = '\\' then Except.ok ('\\', rest2)
      else if e = '/' then Except.ok ('/', rest2)
      else if e = 'b' then Except.ok ('\x08', rest2)
      else if e = 'f' then Except.ok ('\x0c', rest2)
      else if e = 'n' then Except.ok ('\n', rest2)
      else if e = 'r' then Except.ok ('\r', rest2)
      else if e = 't' then Except.ok ('\t', rest2)
      else if e = 'u' then
        match rest2 with
        | h1 :: h2 :: h3 :: h4 :: rest3 =>
          match hexVal h1, hexVal h2, hexVal h3, hexVal h4 with
          | some v1, some v2, some v3, some v4 =>
            Except.ok (Char.ofNat (((v1 * 16 + v2) * 16 + v3) * 16 + v4), rest3)
          | _, _, _, _ => Except.error tokErr
        | _ => Except.error eofErr
      else Except.error tokErr
  else if c.toNat < 0x20 then Except.error "Bad control character in JSON"
  else Except.ok (c, rest)

/-- Body of a JSON string literal, after the opening quote: returns the
decoded characters and the input after the closing quote.  The fuel bounds
the number of decoded characters; callers pass `length + 1`, which decoding
at least one input character per step cannot exhaust. -/
def parseStrBody : Nat → List Char → Except String (List Char × List Char)
  | 0, _ => Except.error eofErr
  | _ + 1, [] => Except.error eofErr
  | fuel + 1, c :: rest =>
    if c = '"' then Except.ok ([], rest)
    else
      match strChar c rest with
      | Except.error e => Except.error e
      | Except.ok (ch, rem) =>
        match parseStrBody fuel rem with
        | Except.error e => Except.error e
        | Except.ok (cs2, rem2) => Except.ok (ch :: cs2, rem2)

/-- A JSON number literal: `-? (0 | [1-9][0-9]*) (. [0-9]+)? ([eE][+-]?[0-9]+)?`.
Returns the value and the remaining input. -/
def parseNum (cs : List Char) : Except String (JsNum × List Char) :=
  let (neg, cs1) :=
    match cs with
    | '-' :: rest => (true, rest)
    | _ => (false, cs)
  let ip := cs1.takeWhile isDig
  let cs2 := cs1.dropWhile isDig
  match ip with
  | [] => Except.error tokErr
  | d :: ds =>
    if d = '0' && !ds.isEmpty then Except.error tokErr
    else
      let (fp, cs3) :=
        match cs2 with
        | '.' :: rest =>
          let f := rest.takeWhile isDig
          (some f, rest.dropWhile isDig)
        | _ => (none, cs2)
      match fp with
      | some [] => Except.error tokErr
      | _ =>
        let fdigits := fp.getD []
        let (expOk, expo, cs4) :=
          match cs3 with
          | 'e' :: rest => readNumExpo rest
          | 'E' :: rest => readNumExpo rest
          | _ => (true, (0 : Int), cs3)
        if !expOk then Except.error tokErr
        else
          let mantN : Int := Int.ofNat (digitsToNat ((d :: ds) ++ fdigits))
          let signed : Int := if neg then -mantN else mantN
          let mantD : Nat := 10 ^ fdigits.length
          if 0 ≤ expo then Except.ok (⟨signed * (10 ^ expo.toNat : Nat), mantD⟩, cs4)
          else Except.ok (⟨signed, mantD * 10 ^ (-expo).toNat⟩, cs4)
where
  /-- JSON exponent suffix after `e`/`E`: optional sign then at least one digit. -/
  readNumExpo (cs : List Char) : Bool × Int × List Char :=
    let (eneg, cs1) :=
      match cs with
      | '-' :: rest => (true, rest)
      | '+' :: rest => (false, rest)
      | _ => (false, cs)
    let ds := cs1.takeWhile isDig
    if ds.isEmpty then (false, 0, cs)
    else (true, if eneg then -(Int.ofNat (digitsToNat ds)) else Int.ofNat (digitsToNat ds),
          cs1.dropWhile isDig)

mutual

/-- One JSON value, fuel-indexed (the fuel bounds the nesting depth; the
entry point supplies `length + 1`, which a value nested at most one level per
consumed character can never exhaust). -/
def parseVal (fuel : Nat) (cs : List Char) : Except String (Json × List Char) :=
  match fuel with
  | 0 => Except.error eofErr
  | fuel + 1 =>
    match skipWs cs with
    | [] => Except.error eofErr
    | c :: rest =>
      if c = 'n' then
        if litAtHead ['u', 'l', 'l'] rest then Except.ok (Json.null, rest.drop 3)
        else Except.error tokErr
      else if c = 't' then
        if litAtHead ['r', 'u', 'e'] rest then Except.ok (Json.bool true, rest.drop 3)
        else Except.error tokErr
      else if c = 'f' then
        if litAtHead ['a', 'l', 's', 'e'] rest then Except.ok (Json.bool false, rest.drop 4)
        else Except.error tokErr
      else if c = '"' then
        match parseStrBody (rest.length + 1) rest with
        | Except.ok (body, rem) => Except.ok (Json.str (String.mk body), rem)
        | Except.error e => Except.error e
      else if c = '[' then
        match skipWs rest with
        | ']' :: rem => Except.ok (Json.arr [], rem)
        | rest2 =>
          match parseVal fuel rest2 with
          | Except.error e => Except.error e
          | Except.ok (v, rem) =>
            match parseArrRest fuel rem with
            | Except.error e => Except.error e
            | Except.ok (vs, rem2) => Except.ok (Json.arr (v :: vs), rem2)
      else if c = '\x7b' then
        match skipWs rest with
        | '\x7d' :: rem => Except.ok (Json.obj [], rem)
        | rest2 =>
          match parseMember fuel rest2 with
          | Except.error e => Except.error e
          | Except.ok (kv, rem) =>
            match parseObjRest fuel rem with
            | Except.error e => Except.error e
            | Except.ok (kvs, rem2) => Except.ok (Json.obj (kv :: kvs), rem2)
      else if c = '-' || isDig c then
        match parseNum (c :: rest) with
        | Except.error e => Except.error e
        | Except.ok (q, rem) => Except.ok (Json.num q, rem)
      else Except.error tokErr

/-- Array tail after one element: `,` element … or `]`. -/
def parseArrRest (fuel : Nat) (cs : List Char) : Except String (List Json × List Char) :=
  match fuel with
  | 0 => Except.error eofErr
  | fuel + 1 =>
    match skipWs cs with
    | [] => Except.error eofErr
    | c :: rest =>
      if c = ']' then Except.ok ([], rest)
      else if c = ',' then
        match parseVal fuel rest with
        | Except.error e => Except.error e
        | Except.ok (v, rem) =>
          match parseArrRest fuel rem with
          | Except.error e => Except.error e
          | Except.ok (vs, rem2) => Except.ok (v :: vs, rem2)
      else Except.error tokErr

/-- One `"key": value` object member. -/
def parseMember (fuel : Nat) (cs : List Char) : Except String ((String × Json) × List Char) :=
  match fuel with
  | 0 => Except.error eofErr
  | fuel + 1 =>
    match skipWs cs with
    | [] => Except.error eofErr
    | c :: rest =>
      if c = '"' then
        match parseStrBody (rest.length + 1) rest with
        | Except.error e => Except.error e
        | Except.ok (kbody, rem) =>
          match skipWs rem with
          | ':' :: rem2 =>
            match parseVal fuel rem2 with
            | Except.error e => Except.error e
            | Except.ok (v, rem3) => Except.ok ((String.mk kbody, v), rem3)
          | [] => Except.error eofErr
          | _ => Except.error tokErr
      else Except.error tokErr

/-- Object tail after one member: `,` member … or the closing brace. -/
def parseObjRest (fuel : Nat) (cs : List Char) : Except String (List (String × Json) × List Char) :=
  match fuel with
  | 0 => Except.error eofErr
  | fuel + 1 =>
    match skipWs cs with
    | [] => Except.error eofErr
    | c :: rest =>
      if c = '\x7d' then Except.ok ([], rest)
      else if c = ',' then
        match parseMember fuel rest with
        | Except.error e => Except.error e
        | Except.ok (kv, rem) =>
          match parseObjRest fuel rem with
          | Except.error e => Except.error e
          | Except.ok (kvs, rem2) => Except.ok (kv :: kvs, rem2)
      else Except.error tokErr

end

/-- `JSON.parse`: one value, surrounded only by whitespace. -/
def jsonParse (s : String) : Except String Json :=
  match parseVal (s.data.length + 1) s.data with
  | Except.error e => Except.error e
  | Except.ok (v, rest) =>
    match skipWs rest with
    | [] => Except.ok v
    | _ => Except.error tokErr

/-- Characters matched by the regex `\s` (the ASCII forms; exotic Unicode
whitespace is not modelled, no claim uses it). -/
def isRegexWs (c : Char) : Bool :=
  c = ' ' || c = '\t' || c = '\n' || c = '\r' || c = '\x0b' || c = '\x0c'

/-- One attempt of the first repair regex at the head of the input:
`/(":\s*")([^"]*)"([^"]*)"([^"]*?)(")/`.
Each `[^"]*` (greedy or lazy alike) deterministically matches the run of
non-quote characters up to the next `"`, because the class excludes the
delimiter; `\s*` likewise cannot backtrack usefully.  On success, returns the
replacement text for `$1$2\"$3\"$4$5` and the input after the match. -/
def matchFix1 : List Char → Option (List Char × List Char)
  | c1 :: c2 :: cs =>
    if c1 = '"' && c2 = ':' then
      let ws := cs.takeWhile isRegexWs
      match cs.dropWhile isRegexWs with
      | q1 :: cs1 =>
        if q1 = '"' then
          let g2 := cs1.takeWhile (fun c => c ≠ '"')
          match cs1.dropWhile (fun c => c ≠ '"') with
          | _ :: cs2 =>
            let g3 := cs2.takeWhile (fun c => c ≠ '"')
            match cs2.dropWhile (fun c => c ≠ '"') with
            | _ :: cs3 =>
              let g4 := cs3.takeWhile (fun c => c ≠ '"')
              match cs3.dropWhile (fun c => c ≠ '"') with
              | _ :: cs4 =>
                some (('"' :: ':' :: ws) ++ ['"'] ++ g2 ++ ['\\', '"'] ++ g3
                        ++ ['\\', '"'] ++ g4 ++ ['"'], cs4)
              | [] => none
            | [] => none
          | [] => none
        else none
      | [] => none
    else none
  | _ => none

/-- One attempt of the second repair regex at the head of the input:
`/("alarmSummary":\s*")([^"]*?)"([^"]*?)"([^"]*?)(")/`, replacement
`$1$2\"$3\"$4$5` (same deterministic group structure as `matchFix1`). -/
def matchFix2 (cs : List Char) : Option (List Char × List Char) :=
  let lit : List Char := '"' :: "alarmSummary".data ++ ['"', ':']
  if litAtHead lit cs then
    let cs0 := cs.drop lit.length
    let ws := cs0.takeWhile isRegexWs
    match cs0.dropWhile isRegexWs with
    | q1 :: cs1 =>
      if q1 = '"' then
        let g2 := cs1.takeWhile (fun c => c ≠ '"')
        match cs1.dropWhile (fun c => c ≠ '"') with
        | _ :: cs2 =>
          let g3 := cs2.takeWhile (fun c => c ≠ '"')
          match cs2.dropWhile (fun c => c ≠ '"') with
          | _ :: cs3 =>
            let g4 := cs3.takeWhile (fun c => c ≠ '"')
            match cs3.dropWhile (fun c => c ≠ '"') with
            | _ :: cs4 =>
              some ((lit ++ ws) ++ ['"'] ++ g2 ++ ['\\', '"'] ++ g3
                      ++ ['\\', '"'] ++ g4 ++ ['"'], cs4)
            | [] => none
          | [] => none
        | [] => none
      else none
    | [] => none
  else none

/-- Global regex replacement (`.replace(/…/g, …)`): scan left to right, try
the matcher at each position; on a match, emit the replacement and resume
after the match, otherwise emit one character and advance.  The fuel is the
input length (every step consumes at least one input character). -/
def replaceAllF (m : List Char → Option (List Char × List Char)) :
    Nat → List Char → List Char
  | 0, cs => cs
  | _ + 1, [] => []
  | fuel + 1, c :: rest =>
    match m (c :: rest) with
    | some (rep, rem) => rep ++ replaceAllF m fuel rem
    | none => c :: replaceAllF m fuel rest

/-- The first repair pass (line 147 of the source). -/
def fix1 (s : String) : String :=
  String.mk (replaceAllF matchFix1 s.data.length s.data)

/-- The second, `alarmSummary`-specific repair pass (line 150 of the source). -/
def fix2 (s : String) : String :=
  String.mk (replaceAllF matchFix2 s.data.length s.data)

/-- Both repair passes, in source order. -/
def fixBody (s : String) : String := fix2 (fix1 s)

/-- Status mapping at the top of `formatAlarmMessage` (source lines 221–231):
`FIRING_TO_OK` → (✅, RESOLVED), `OK_TO_FIRING` → (🔥, FIRING), anything else
keeps the ℹ️ emoji and stringifies the raw status. -/
def statusPair (status : Json) : String × String :=
  match status with
  | Json.str s =>
    if s = "FIRING_TO_OK" then ("✅", "RESOLVED")
    else if s = "OK_TO_FIRING" then ("🔥", "FIRING")
    else ("ℹ️", s)
  | v => ("ℹ️", jsToString v)

/-- First element of an array-valued field, the worker's recurring guard
`x?.f && Array.isArray(x.f) && x.f.length > 0 … x.f[0]` (non-arrays and empty
arrays are skipped; a non-empty array is always truthy). -/
def firstOfArrField (v : Json) (k : String) : Option Json :=
  match getMember v k with
  | some (Json.arr (x :: _)) => some x
  | _ => none

/-- A conditional `*Label:* value` line for a truthy field (source lines
257–265): emitted only when the field is present and truthy. -/
def truthyLine (v : Json) (k : String) (label : String) : String :=
  match getMember v k with
  | some u => if jsTruthy u then label ++ jsToString u ++ "\n" else ""
  | none => ""

/-- The dimensions block (source lines 255–266): resource name, instance
shape and region from the first `dimensions` entry. -/
def dimensionLines (alarmMeta : Json) : String :=
  match firstOfArrField alarmMeta "dimensions" with
  | some dimension =>
    truthyLine dimension "resourceDisplayName" "*Resource:* "
    ++ truthyLine dimension "shape" "*Instance Type:* "
    ++ truthyLine dimension "region" "*Region:* "
  | none => ""

/-- The metric loop body (source lines 271–283): for each own key of the
first `metricValues` entry (an object or, via `typeof`, an array), parse the
value as a float, skip `NaN`s, and render `*<name>:* <value>.toFixed(1)%`
where the name is `CPU Usage` whenever the key contains `Cpu`.  Duplicate
JSON keys collapse to one JavaScript property (first position, last value). -/
def renderMetricLines (metrics : Json) : List String :=
  if jsTruthy metrics then
    match metrics with
    | Json.obj fields =>
      (dedupKeys (fields.map Prod.fst) []).filterMap (fun k =>
        metricLine k ((lookupLast fields k).getD Json.null))
    | Json.arr xs =>
      ((List.range xs.length).zip xs).filterMap (fun p => metricLine (natRepr p.1) p.2)
    | _ => []
  else []
where
  /-- Deduplicate keys, keeping the first occurrence (`Object.keys` order). -/
  dedupKeys : List String → List String → List String
    | [], _ => []
    | k :: rest, seen =>
      if k ∈ seen then dedupKeys rest seen else k :: dedupKeys rest (k :: seen)
  /-- One metric entry, or `none` when `parseFloat` yields `NaN`. -/
  metricLine (k : String) (v : Json) : Option String :=
    match parseFloatQ (jsToString v) with
    | some q =>
      some ("*" ++ (if containsSub "Cpu".data k.data then "CPU Usage" else k)
              ++ ":* " ++ toFixed1 q ++ "%")
    | none => none

/-- The metrics section (source lines 269–284): the metric lines of the first
`metricValues` entry, each terminated by a newline. -/
def metricsSection (alarmMeta : Json) : String :=
  match firstOfArrField alarmMeta "metricValues" with
  | some metrics => (renderMetricLines metrics).foldl (fun acc l => acc ++ l ++ "\n") ""
  | none => ""

/-- The details section (source lines 286–292), the renderer's only genuine
throw point: a truthy `alarmSummary` whose `.length` exceeds 200 is
`substring`-truncated with an ellipsis — but `.substring` exists only on
strings, so a long *array* summary raises a `TypeError` (caught by the
function's `catch`).  Values without a numeric `.length` flow through
unchanged (`undefined > 200` is false). -/
def detailsSection (alarmMeta : Json) : Except String String :=
  match getMember alarmMeta "alarmSummary" with
  | some s =>
    if jsTruthy s then
      match jsLength s with
      | some n =>
        if n > 200 then
          match s with
          | Json.str str => Except.ok ("*Details:* " ++ takeStr str 200 ++ "..." ++ "\n")
          | _ => Except.error "summary.substring is not a function"
        else Except.ok ("*Details:* " ++ jsToString s ++ "\n")
      | none => Except.ok ("*Details:* " ++ jsToString s ++ "\n")
    else Except.ok ""
  | none => Except.ok ""

/-- The console-link line (source lines 294–296). -/
def consoleLine (alarmMeta : Json) : String :=
  match getMember alarmMeta "alarmUrl" with
  | some u => if jsTruthy u then "[View in Console](" ++ jsToString u ++ ")\n" else ""
  | none => ""

/-- The `try` block of `formatAlarmMessage` (source lines 216–299), with the
one reachable exception surfaced in the `Except`. -/
def renderCoreE (alarmData : Json) : Except String String :=
  let status := jsOr (getMember alarmData "type") (Json.str "UNKNOWN")
  let es := statusPair status
  let m1 := es.1 ++ " *Oracle VM Alert*\n\n" ++ "*Status:* " ++ es.2 ++ "\n"
  let m2 := m1 ++ "*Severity:* "
    ++ jsToString (jsOr (getMember alarmData "severity") (Json.str "INFO")) ++ "\n"
  let m3 := m2 ++ "*Time:* "
    ++ jsToString (jsOr (getMember alarmData "timestamp") (Json.str "Unknown time")) ++ "\n"
  let m4 :=
    match getMember alarmData "title" with
    | some t => if jsTruthy t then m3 ++ "*Alert:* " ++ jsToString t ++ "\n" else m3
    | none => m3
  match firstOfArrField alarmData "alarmMetaData" with
  | none => Except.ok m4
  | some alarmMeta =>
    let m5 := m4 ++ dimensionLines alarmMeta ++ metricsSection alarmMeta
    match detailsSection alarmMeta with
    | Except.error e => Except.error e
    | Except.ok d => Except.ok (m5 ++ d ++ consoleLine alarmMeta)

/-- The `catch` branch of `formatAlarmMessage` (source line 303): apology,
error description, and the raw JSON dump truncated to 300 characters. -/
def fallbackMessage (e : String) (j : Json) : String :=
  "🚨 *Oracle VM Alert*\n\nReceived alarm but failed to parse details.\nError: "
    ++ e ++ "\nRaw: " ++ takeStr (stringifyJson j) 300 ++ "..."

/-- `formatAlarmMessage` (source lines 216–305): the rendered message, or the
fallback when the rendering core throws. -/
def formatAlarmMessage (j : Json) : String :=
  match renderCoreE j with
  | Except.ok s => s
  | Except.error e => fallbackMessage e j

/-- The renderer's possible argument domain seen from `JSON.stringify`:
a parsed JSON value or `undefined` (`JSON.stringify(undefined)` is itself
`undefined`, on which the fallback's `.substring` would throw). -/
inductive JsIn where
  | val (j : Json) : JsIn
  | undef : JsIn

/-- `JSON.stringify` on that domain. -/
def stringifyIn : JsIn → Option String
  | JsIn.val j => some (stringifyJson j)
  | JsIn.undef => none

/-- The `catch` branch with its own throw point made explicit: building the
raw dump of `undefined` would itself raise. -/
def fallbackE (e : String) (a : JsIn) : Except String String :=
  match stringifyIn a with
  | none => Except.error "Cannot read properties of undefined"
  | some s =>
    Except.ok ("🚨 *Oracle VM Alert*\n\nReceived alarm but failed to parse details.\nError: "
      ++ e ++ "\nRaw: " ++ takeStr s 300 ++ "...")

/-- `formatAlarmMessage` with every exception (including any the fallback
itself could raise) left in the `Except`: `Except.error` here would mean the
function lets an exception escape to its caller. -/
def formatAlarmMessageE (j : Json) : Except String String :=
  match renderCoreE j with
  | Except.ok s => Except.ok s
  | Except.error e => fallbackE e (JsIn.val j)

/-- Worker environment bindings (`env`): a Cloudflare secret is a string when
configured, absent otherwise. -/
structure WorkerEnv where
  TELEGRAM_BOT_TOKEN : Option String
  TELEGRAM_CHAT_ID : Option String

/-- Truthiness of an environment binding (`!env.X`): falsy when absent or the
empty string. -/
def envTruthy : Option String → Bool
  | none => false
  | some s => decide (s ≠ "")

/-- An inbound request as the handler consumes it: method, headers, and the
text body (`await request.text()`). -/
structure WorkerRequest where
  method : String
  headers : List (String × String)
  body : String

/-- An outbound `fetch` performed by the worker: the confirmation GET (with
its `User-Agent` header) or the Telegram POST (with its JSON body). -/
inductive OutboundCall where
  | get (url : String) (userAgent : String) : OutboundCall
  | post (url : String) (body : String) : OutboundCall
deriving DecidableEq

/-- Is this outbound call a POST (the chat-delivery shape)? -/
def isPostCall : OutboundCall → Bool
  | OutboundCall.post _ _ => true
  | OutboundCall.get _ _ => false

/-- Is this outbound call a GET to the given URL? -/
def isGetTo (url : String) : OutboundCall → Bool
  | OutboundCall.get u _ => decide (u = url)
  | OutboundCall.post _ _ => false

/-- The collaborator's view of an upstream response: `ok` is
`Response.ok` (HTTP status in the 2xx range). -/
structure HttpResponse where
  ok : Bool
deriving DecidableEq

/-- The worker's own HTTP response (`new Response(body, { status })`). -/
structure WorkerResponse where
  body : String
  status : Nat
deriving DecidableEq

/-- The body-based subscription-confirmation constant (source line 164). -/
def subscriptionEventType : String := "com.oraclecloud.ons.subscriptionconfirmation"

/-- The confirmation test (source line 164):
`alarmData && alarmData.eventType === 'com.oraclecloud.ons.subscriptionconfirmation'`.
No header is consulted anywhere in the handler. -/
def isConfirmationRequest (v : Json) : Bool :=
  jsTruthy v &&
    (match getMember v "eventType" with
     | some (Json.str s) => decide (s = subscriptionEventType)
     | _ => false)

/-- A truthy property, the guard `if (alarmData.confirmationUrl)`
(source line 168). -/
def getTruthyMember (v : Json) (k : String) : Option Json :=
  match getMember v k with
  | some u => if jsTruthy u then some u else none
  | none => none

/-- The `sendToTelegram` call wrapped in the handler's delivery logic
(source lines 200–207 and 307–341): a missing or empty bot token or chat id
throws `… not configured` before any outbound call, which the handler's outer
`catch` converts to a 500 `Internal server error`; otherwise one POST to the
Bot API, 200 on `ok`, 500 `Failed to send message` on a non-2xx response, and
the outer `catch`'s 500 when the `fetch` itself rejects. -/
def sendAlarm (http : OutboundCall → Except String HttpResponse) (env : WorkerEnv)
    (v : Json) : WorkerResponse × List OutboundCall :=
  let message := formatAlarmMessage v
  if !envTruthy env.TELEGRAM_BOT_TOKEN then (⟨"Internal server error", 500⟩, [])
  else if !envTruthy env.TELEGRAM_CHAT_ID then (⟨"Internal server error", 500⟩, [])
  else
    let tok := env.TELEGRAM_BOT_TOKEN.getD ""
    let cid := env.TELEGRAM_CHAT_ID.getD ""
    let payload := Json.obj
      [("chat_id", Json.str cid), ("text", Json.str message),
       ("parse_mode", Json.str "Markdown"), ("disable_web_page_preview", Json.bool true)]
    let call := OutboundCall.post ("https://api.telegram.org/bot" ++ tok ++ "/sendMessage")
      (stringifyJson payload)
    match http call with
    | Except.ok r =>
      if r.ok then (⟨"Message sent successfully", 200⟩, [call])
      else (⟨"Failed to send message", 500⟩, [call])
    | Except.error _ => (⟨"Internal server error", 500⟩, [call])

/-- The post-parse stage of the handler (source lines 163–207): the
subscription-confirmation branch (GET to the body's `confirmationUrl`, with
its own `try`/`catch`), the 400 when that URL is missing, and otherwise the
alarm-delivery branch. -/
def processParsed (http : OutboundCall → Except String HttpResponse) (env : WorkerEnv)
    (v : Json) : WorkerResponse × List OutboundCall :=
  if isConfirmationRequest v then
    match getTruthyMember v "confirmationUrl" with
    | some u =>
      let call := OutboundCall.get (jsToString u) "CloudflareWorker/1.0"
      match http call with
      | Except.ok r =>
        if r.ok then (⟨"Subscription confirmed successfully", 200⟩, [call])
        else (⟨"Failed to confirm subscription", 500⟩, [call])
      | Except.error _ => (⟨"Error confirming subscription", 500⟩, [call])
    | none => (⟨"No confirmation URL provided", 400⟩, [])
  else sendAlarm http env v

/-- The parse stage (source lines 133–159): strict parse, then on failure
both repair passes and a re-parse; a second failure surfaces the original
parse error. -/
def parseBody (raw : String) : Except String Json :=
  match jsonParse raw with
  | Except.ok v => Except.ok v
  | Except.error e1 =>
    match jsonParse (fixBody raw) with
    | Except.ok v => Except.ok v
    | Except.error _ => Except.error e1

/-- The whole `fetch` handler (source lines 110–214).  Headers are carried in
the request but — faithfully to the code — never read. -/
def fetchHandler (http : OutboundCall → Except String HttpResponse) (env : WorkerEnv)
    (req : WorkerRequest) : WorkerResponse × List OutboundCall :=
  if req.method = "GET" then
    (⟨"Oracle Cloud Infrastructure Webhook Endpoint - Ready", 200⟩, [])
  else if req.method ≠ "POST" then (⟨"Method not allowed", 405⟩, [])
  else
    match parseBody req.body with
    | Except.ok v => processParsed http env v
    | Except.error e => (⟨"Invalid JSON that cannot be fixed: " ++ e, 400⟩, [])

/-- A collaborator that answers every outbound call with a 2xx response
(used to instantiate theorems at concrete inputs). -/
def httpAllOk : OutboundCall → Except String HttpResponse := fun _ => Except.ok ⟨true⟩

/-- A fully configured environment (used to instantiate theorems). -/
def envFull : WorkerEnv := ⟨some "TOK", some "42"⟩

/-- On a POST request the handler is the parse stage followed by the
post-parse stage (method dispatch reduced away). -/
lemma fetchHandler_post (http : OutboundCall → Except String HttpResponse)
    (env : WorkerEnv) (hs : List (String × String)) (raw : String) :
    fetchHandler http env ⟨"POST", hs, raw⟩
      = (match parseBody raw with
         | Except.ok v => processParsed http env v
         | Except.error e => (⟨"Invalid JSON that cannot be fixed: " ++ e, 400⟩, [])) := rfl

/-- When the strict parse succeeds, the handler continues with exactly the
parsed value. -/
lemma fetchHandler_parse_ok (http : OutboundCall → Except String HttpResponse)
    (env : WorkerEnv) (hs : List (String × String)) (raw : String) (v : Json)
    (h : jsonParse raw = Except.ok v) :
    fetchHandler http env ⟨"POST", hs, raw⟩ = processParsed http env v := by
  rw [fetchHandler_post]
  simp only [parseBody, h]

/-- Only objects have members, and objects are truthy. -/
lemma jsTruthy_of_getMember (v : Json) (k : String) (u : Json)
    (h : getMember v k = some u) : jsTruthy v = true := by
  cases v <;> simp_all [getMember, jsTruthy]

/-- The body `eventType` field being the confirmation constant makes the
handler's confirmation test true. -/
lemma isConfirmation_of_eventType (v : Json)
    (h : getMember v "eventType" = some (Json.str subscriptionEventType)) :
    isConfirmationRequest v = true := by
  unfold isConfirmationRequest
  rw [h, jsTruthy_of_getMember v "eventType" (Json.str subscriptionEventType) h]
  simp

/-- Dropping JSON whitespace from an all-whitespace list leaves nothing. -/
lemma skipWs_of_ws (cs : List Char) (h : ∀ c ∈ cs, isJsonWs c = true) :
    skipWs cs = [] := by
  induction cs with
  | nil => rfl
  | cons c rest ih =>
    have hc : isJsonWs c = true := h c (List.mem_cons_self c rest)
    have hr : ∀ x ∈ rest, isJsonWs x = true := fun x hx => h x (List.mem_cons_of_mem c hx)
    simp only [skipWs, List.dropWhile, hc]
    exact ih hr

/-- `JSON.parse` of an empty or whitespace-only body fails with the
end-of-input diagnostic. -/
lemma jsonParse_of_ws (s : String) (h : ∀ c ∈ s.data, isJsonWs c = true) :
    jsonParse s = Except.error eofErr := by
  have hp : parseVal (s.data.length + 1) s.data = Except.error eofErr := by
    simp only [parseVal, skipWs_of_ws s.data h]
  simp only [jsonParse, hp]

/-- The first repair regex needs a quote to start a match. -/
lemma matchFix1_nonquote (c : Char) (hc : c ≠ '"') (rest : List Char) :
    matchFix1 (c :: rest) = none := by
  cases rest with
  | nil => rfl
  | cons d ds => simp [matchFix1, hc]

/-- The second repair regex needs a quote to start a match. -/
lemma matchFix2_nonquote (c : Char) (hc : c ≠ '"') (rest : List Char) :
    matchFix2 (c :: rest) = none := by
  have hd : decide ('"' = c) = false := by
    simp [eq_comm]
    exact hc
  have hlit : litAtHead ('"' :: "alarmSummary".data ++ ['"', ':']) (c :: rest) = false := by
    show (decide ('"' = c) && litAtHead ("alarmSummary".data ++ ['"', ':']) rest) = false
    rw [hd, Bool.false_and]
  unfold matchFix2
  dsimp only
  rw [hlit]
  rfl

/-- A matcher that never fires on the input leaves global replacement as the
identity. -/
lemma replaceAllF_id (m : List Char → Option (List Char × List Char))
    (hm : ∀ (c : Char) (rest : List Char), c ≠ '"' → m (c :: rest) = none)
    (n : Nat) (cs : List Char) (h : ∀ c ∈ cs, c ≠ '"') : replaceAllF m n cs = cs := by
  induction n generalizing cs with
  | zero => rfl
  | succ n ih =>
    cases cs with
    | nil => rfl
    | cons c rest =>
      have hc : c ≠ '"' := h c (List.mem_cons_self c rest)
      have hr : ∀ x ∈ rest, x ≠ '"' := fun x hx => h x (List.mem_cons_of_mem c hx)
      simp only [replaceAllF, hm c rest hc]
      rw [ih rest hr]

/-- Both repair passes are the identity on quote-free text (in particular on
empty or whitespace-only bodies). -/
lemma fixBody_of_no_quote (s : String) (h : ∀ c ∈ s.data, c ≠ '"') : fixBody s = s := by
  have h1 : fix1 s = s := by
    unfold fix1
    rw [replaceAllF_id matchFix1 (fun c rest hc => matchFix1_nonquote c hc rest) _ _ h]
  unfold fixBody
  rw [h1]
  unfold fix2
  rw [replaceAllF_id matchFix2 (fun c rest hc => matchFix2_nonquote c hc rest) _ _ h]

/-- The POST body of claim C1:
`{"alarmMetaData":[{"alarmSummary": "text "quoted" more text"}]}` —
an `alarmSummary` string value carrying two literal unescaped quotes. -/
def c1Body : String :=
  "\x7b\"alarmMetaData\":[\x7b\"alarmSummary\": \"text \"quoted\" more text\"\x7d]\x7d"

/-- The record claim C1 expects the repair to produce: the embedded quotes
preserved as content of `alarmSummary`. -/
def c1Repaired : Json :=
  Json.obj [("alarmMetaData",
    Json.arr [Json.obj [("alarmSummary", Json.str "text \"quoted\" more text")]])]

/-- C1: for the body with unescaped quotes inside `alarmSummary`, the strict
parse fails (as the claim says) and the FIRST repair regex alone would
produce exactly the claimed record — but the second, `alarmSummary`-specific
replace runs on the already-repaired text and turns each inserted `\"` into
`\\"`, so the combined repair output fails to parse again and the handler
answers 400 instead of accepting the payload.  This contradicts the claim
(and the code's own stated intent that the second pass is an *additional*
fix for this very field). -/
theorem c1_repair_pass_breaks_alarmSummary :
    jsonParse c1Body = Except.error tokErr ∧
    jsonParse (fix1 c1Body) = Except.ok c1Repaired ∧
    fixBody c1Body ≠ fix1 c1Body ∧
    jsonParse (fixBody c1Body) = Except.error tokErr ∧
    fetchHandler httpAllOk envFull ⟨"POST", [], c1Body⟩
      = (⟨"Invalid JSON that cannot be fixed: " ++ tokErr, 400⟩, []) :=
  ⟨by rfl, by rfl, by decide, by rfl, by rfl⟩

/-- C2: whenever the strict JSON parse succeeds, the repair pass is not
applied — the parse stage returns the strictly parsed value unchanged, and
the handler proceeds to the downstream (classification/delivery) stage with
exactly that value, whatever JSON value (object or not) it is. -/
theorem c2_strict_parse_value_used_unchanged
    (http : OutboundCall → Except String HttpResponse) (env : WorkerEnv)
    (hs : List (String × String)) (raw : String) (v : Json)
    (h : jsonParse raw = Except.ok v) :
    parseBody raw = Except.ok v ∧
    fetchHandler http env ⟨"POST", hs, raw⟩ = processParsed http env v := by
  refine ⟨?_, fetchHandler_parse_ok http env hs raw v h⟩
  simp only [parseBody, h]

/-- C2 witness: the non-object body `5` parses and is handed downstream
as the number 5. -/
theorem c2_witness :
    parseBody "5" = Except.ok (Json.num ⟨5, 1⟩) ∧
    fetchHandler httpAllOk envFull ⟨"POST", [], "5"⟩
      = processParsed httpAllOk envFull (Json.num ⟨5, 1⟩) :=
  c2_strict_parse_value_used_unchanged httpAllOk envFull [] "5" (Json.num ⟨5, 1⟩) rfl

/-- C6: when the strict parse and the post-repair re-parse both fail, the
400 response carries the ORIGINAL parse failure's message `e1`, not the
second failure's `e2`. -/
theorem c6_original_error_reported
    (http : OutboundCall → Except String HttpResponse) (env : WorkerEnv)
    (hs : List (String × String)) (raw e1 e2 : String)
    (h1 : jsonParse raw = Except.error e1)
    (h2 : jsonParse (fixBody raw) = Except.error e2) :
    fetchHandler http env ⟨"POST", hs, raw⟩
      = (⟨"Invalid JSON that cannot be fixed: " ++ e1, 400⟩, []) := by
  rw [fetchHandler_post]
  simp only [parseBody, h1, h2]

/-- C6 witness: the body `nope` fails both parses, and the response carries
the first failure's message. -/
theorem c6_witness :
    fetchHandler httpAllOk envFull ⟨"POST", [], "nope"⟩
      = (⟨"Invalid JSON that cannot be fixed: " ++ tokErr, 400⟩, []) :=
  c6_original_error_reported httpAllOk envFull [] "nope" tokErr tokErr rfl rfl

/-- C5 counterexample: an empty POST body (here even with the
confirmation-signalling header set) is answered through the generic
unrepairable-JSON path — status 400 with text
`Invalid JSON that cannot be fixed: Unexpected end of JSON input` — which is
the same diagnostic shape as any other parse failure and does not identify
the empty body (it contains no `empty`/`Empty`/`body`): the code has no
dedicated EmptyBody outcome, contradicting the claim. -/
theorem c5_counterexample :
    fetchHandler httpAllOk envFull
        ⟨"POST", [("x-oci-ns-messagetype", "SubscriptionConfirmation")], ""⟩
      = (⟨"Invalid JSON that cannot be fixed: " ++ eofErr, 400⟩, []) ∧
    containsSub "empty".data ("Invalid JSON that cannot be fixed: " ++ eofErr).data = false ∧
    containsSub "Empty".data ("Invalid JSON that cannot be fixed: " ++ eofErr).data = false ∧
    containsSub "body".data ("Invalid JSON that cannot be fixed: " ++ eofErr).data = false :=
  ⟨rfl, by decide, by decide, by decide⟩

/-- C5 as amended: every empty or whitespace-only POST body is rejected with
status 400, regardless of headers, but through the generic unrepairable-JSON
outcome carrying the original parse error (`Unexpected end of JSON input`),
not a dedicated empty-body outcome. -/
theorem c5_amended_empty_body_unrepairable
    (http : OutboundCall → Except String HttpResponse) (env : WorkerEnv)
    (hs : List (String × String)) (raw : String)
    (h : ∀ c ∈ raw.data, isJsonWs c = true) :
    fetchHandler http env ⟨"POST", hs, raw⟩
      = (⟨"Invalid JSON that cannot be fixed: " ++ eofErr, 400⟩, []) := by
  have hq : ∀ c ∈ raw.data, c ≠ '"' := by
    intro c hc hcq
    have hw := h c hc
    subst hcq
    simp [isJsonWs] at hw
  have hjp := jsonParse_of_ws raw h
  have hfix : jsonParse (fixBody raw) = Except.error eofErr := by
    rw [fixBody_of_no_quote raw hq]
    exact hjp
  rw [fetchHandler_post]
  simp only [parseBody, hjp, hfix]

/-- C5 witness: the whitespace-only body consisting of one space. -/
theorem c5_witness :
    fetchHandler httpAllOk envFull ⟨"POST", [], " "⟩
      = (⟨"Invalid JSON that cannot be fixed: " ++ eofErr, 400⟩, []) :=
  c5_amended_empty_body_unrepairable httpAllOk envFull [] " " (by decide)

set_option maxRecDepth 8192

/-- A POST body naming the confirmation event type and carrying the
confirmation URL under the capital `ConfirmationURL` spelling only. -/
def capBody : String :=
  "\x7b\"eventType\":\"com.oraclecloud.ons.subscriptionconfirmation\",\"ConfirmationURL\":\"https://x/y\"\x7d"

/-- C3 counterexample: (a) a POST carrying both confirmation headers
(`x-oci-ns-messagetype: SubscriptionConfirmation` and
`x-oci-ns-confirmationurl: https://x/y`) over a plain `{}` body is NOT
classified as a confirmation request — the handler issues no GET at all and
answers through the alarm-delivery path — because the code never reads any
header; and (b) a body carrying the URL under the accepted-per-claim
`ConfirmationURL` spelling is answered 400 `No confirmation URL provided`
with no outbound call — only the exact `confirmationUrl` spelling is read. -/
theorem c3_counterexample :
    (fetchHandler httpAllOk envFull
        ⟨"POST", [("x-oci-ns-messagetype", "SubscriptionConfirmation"),
                  ("x-oci-ns-confirmationurl", "https://x/y")], "\x7b\x7d"⟩).1.body
      = "Message sent successfully" ∧
    (fetchHandler httpAllOk envFull
        ⟨"POST", [("x-oci-ns-messagetype", "SubscriptionConfirmation"),
                  ("x-oci-ns-confirmationurl", "https://x/y")], "\x7b\x7d"⟩).2.filter
        (isGetTo "https://x/y") = [] ∧
    fetchHandler httpAllOk envFull ⟨"POST", [], capBody⟩
      = (⟨"No confirmation URL provided", 400⟩, []) :=
  ⟨by rfl, by rfl, by rfl⟩

/-- C3 as amended: the classifier recognises a confirmation request from the
body alone — the parsed value's `eventType` equalling the subscription
confirmation constant — independently of any header; the confirmation URL is
taken only from the body's `confirmationUrl` field (exact spelling): when
that field is truthy the one outbound call is a GET to it, and when it is
absent or falsy the handler answers 400 `No confirmation URL provided`
without any outbound call. -/
theorem c3_amended_body_only_confirmation
    (http : OutboundCall → Except String HttpResponse) (env : WorkerEnv)
    (hs : List (String × String)) (raw : String) (v : Json)
    (h1 : jsonParse raw = Except.ok v)
    (h2 : getMember v "eventType" = some (Json.str subscriptionEventType)) :
    (∀ u, getTruthyMember v "confirmationUrl" = some u →
        (fetchHandler http env ⟨"POST", hs, raw⟩).2
          = [OutboundCall.get (jsToString u) "CloudflareWorker/1.0"]) ∧
    (getTruthyMember v "confirmationUrl" = none →
        fetchHandler http env ⟨"POST", hs, raw⟩
          = (⟨"No confirmation URL provided", 400⟩, [])) := by
  have hconf := isConfirmation_of_eventType v h2
  rw [fetchHandler_parse_ok http env hs raw v h1]
  unfold processParsed
  rw [hconf]
  constructor
  · intro u hu
    rw [if_pos rfl, hu]
    dsimp only
    cases hc : http (OutboundCall.get (jsToString u) "CloudflareWorker/1.0") with
    | ok r =>
      cases r with
      | mk b => cases b <;> rfl
    | error e => rfl
  · intro hn
    rw [if_pos rfl, hn]

/-- A POST body naming the confirmation event type with the lowercase
`confirmationUrl` field the code reads. -/
def confBody : String :=
  "\x7b\"eventType\":\"com.oraclecloud.ons.subscriptionconfirmation\",\"confirmationUrl\":\"https://x/y\"\x7d"

/-- The parsed value of `confBody`. -/
def confVal : Json :=
  Json.obj [("eventType", Json.str subscriptionEventType),
            ("confirmationUrl", Json.str "https://x/y")]

/-- C3 witness: the body-signalled confirmation issues the GET to the body's
`confirmationUrl`. -/
theorem c3_witness :
    (fetchHandler httpAllOk envFull ⟨"POST", [], confBody⟩).2
      = [OutboundCall.get "https://x/y" "CloudflareWorker/1.0"] :=
  (c3_amended_body_only_confirmation httpAllOk envFull [] confBody confVal
    (by rfl) (by rfl)).1 (Json.str "https://x/y") (by rfl)

/-- C4 counterexample: a POST carrying the header
`x-oci-ns-confirmationurl: https://x/y` over an ordinary alarm body triggers
NO outbound GET to `https://x/y` (the claim demands exactly one): the header
is never read, and the request is handled as alarm delivery. -/
theorem c4_counterexample :
    ((fetchHandler httpAllOk envFull
        ⟨"POST", [("x-oci-ns-confirmationurl", "https://x/y")],
         "\x7b\"type\":\"OK_TO_FIRING\"\x7d"⟩).2.filter (isGetTo "https://x/y")).length = 0 ∧
    (fetchHandler httpAllOk envFull
        ⟨"POST", [("x-oci-ns-confirmationurl", "https://x/y")],
         "\x7b\"type\":\"OK_TO_FIRING\"\x7d"⟩).1.body = "Message sent successfully" :=
  ⟨by rfl, by rfl⟩

/-- C4 as amended: when the confirmation request is signalled in the body
(`eventType` = subscription confirmation, `confirmationUrl` = `https://x/y`),
the handler issues exactly one outbound GET to `https://x/y`, and its
response status is 200 when the upstream call is 2xx and 500 otherwise. -/
theorem c4_amended_body_confirmation_get
    (http : OutboundCall → Except String HttpResponse) (env : WorkerEnv)
    (hs : List (String × String)) (raw : String) (v : Json)
    (h1 : jsonParse raw = Except.ok v)
    (h2 : getMember v "eventType" = some (Json.str subscriptionEventType))
    (h3 : getMember v "confirmationUrl" = some (Json.str "https://x/y")) :
    ((fetchHandler http env ⟨"POST", hs, raw⟩).2.filter (isGetTo "https://x/y")).length = 1 ∧
    (∀ r, http (OutboundCall.get "https://x/y" "CloudflareWorker/1.0") = Except.ok r →
        (fetchHandler http env ⟨"POST", hs, raw⟩).1.status
          = if r.ok then 200 else 500) := by
  have hconf := isConfirmation_of_eventType v h2
  have ht : getTruthyMember v "confirmationUrl" = some (Json.str "https://x/y") := by
    simp [getTruthyMember, h3, jsTruthy]
  rw [fetchHandler_parse_ok http env hs raw v h1]
  unfold processParsed
  rw [hconf, if_pos rfl, ht]
  dsimp only
  simp only [jsToString]
  constructor
  · cases hc : http (OutboundCall.get "https://x/y" "CloudflareWorker/1.0") with
    | ok r =>
      cases r with
      | mk b => cases b <;> rfl
    | error e => rfl
  · intro r hr
    rw [hr]
    cases r with
    | mk b => cases b <;> rfl

/-- C4 witness: the body-signalled confirmation against an all-2xx upstream:
exactly one GET to `https://x/y` and a 200 response. -/
theorem c4_witness :
    ((fetchHandler httpAllOk envFull ⟨"POST", [], confBody⟩).2.filter
        (isGetTo "https://x/y")).length = 1 ∧
    (fetchHandler httpAllOk envFull ⟨"POST", [], confBody⟩).1.status = 200 := by
  have h := c4_amended_body_confirmation_get httpAllOk envFull [] confBody confVal
    (by rfl) (by rfl) (by rfl)
  refine ⟨h.1, ?_⟩
  have h2 := h.2 ⟨true⟩ (by rfl)
  simpa using h2

/-- The first `metricValues` entry of claim C7. -/
def c7Metrics : Json :=
  Json.obj [("CpuUtilization", Json.str "87.456"), ("MemoryFree", Json.str "bad")]

/-- An alarm record whose first `metricValues` entry is `c7Metrics`. -/
def c7Alarm : Json :=
  Json.obj [("alarmMetaData", Json.arr [Json.obj [("metricValues", Json.arr [c7Metrics])]])]

/-- C7: for the metric mapping
`{"CpuUtilization":"87.456","MemoryFree":"bad"}` the rendered metrics
section is exactly one line — the non-numeric `MemoryFree` entry is dropped,
`87.456` is rendered to one decimal with a percent sign, and the display
name is `CPU Usage` because the key contains `Cpu`.  The emitted line is the
Markdown-bold `*CPU Usage:* 87.5%`, whose text content (asterisks are the
bold markers) is the claim's `CPU Usage: 87.5%`; the full rendered message
for such a record contains exactly that one metric line. -/
theorem c7_metric_rendering :
    renderMetricLines c7Metrics = ["*CPU Usage:* 87.5%"] ∧
    formatAlarmMessage c7Alarm
      = "ℹ️ *Oracle VM Alert*\n\n*Status:* UNKNOWN\n*Severity:* INFO\n*Time:* Unknown time\n*CPU Usage:* 87.5%\n" ∧
    String.mk (("*CPU Usage:* 87.5%").data.filter (fun c => c ≠ '*')) = "CPU Usage: 87.5%" :=
  ⟨by rfl, by rfl, by rfl⟩

/-- A record on which the rendering core genuinely throws: a truthy
`alarmSummary` that is an array with `.length` 201 > 200, so the code calls
`summary.substring`, which arrays do not have. -/
def jBad : Json :=
  Json.obj [("alarmMetaData",
    Json.arr [Json.obj [("alarmSummary", Json.arr (List.replicate 201 Json.null))]])]

/-- C8: the message renderer never lets an exception escape — for every
parsed JSON value the exception-explicit model returns a string: the
rendering core's result when it does not throw, and otherwise the fixed
fallback apology embedding the error description and the raw-JSON dump
truncated to at most 300 characters, whose construction cannot throw for any
parse-produced input (`JSON.stringify` is total on parsed JSON values). -/
theorem c8_renderer_never_raises :
    (∀ j : Json, formatAlarmMessageE j = Except.ok (formatAlarmMessage j)) ∧
    (∀ (j : Json) (e : String), renderCoreE j = Except.error e →
        formatAlarmMessage j = fallbackMessage e j ∧
        (takeStr (stringifyJson j) 300).length ≤ 300) := by
  constructor
  · intro j
    unfold formatAlarmMessageE formatAlarmMessage
    cases renderCoreE j with
    | ok s => rfl
    | error e => rfl
  · intro j e h
    constructor
    · unfold formatAlarmMessage
      rw [h]
    · show ((stringifyJson j).data.take 300).length ≤ 300
      rw [List.length_take]
      exact min_le_left 300 _

/-- C8 witness: on `jBad` the core throws the array-`substring` TypeError and
the renderer returns the fallback message with a ≤ 300 character dump. -/
theorem c8_witness :
    formatAlarmMessage jBad = fallbackMessage "summary.substring is not a function" jBad ∧
    (takeStr (stringifyJson jBad) 300).length ≤ 300 :=
  c8_renderer_never_raises.2 jBad "summary.substring is not a function" (by rfl)

/-- C9: an alarm-notification POST (parsed body, not a confirmation) under a
configuration missing the bot token or the chat id fails with the
configuration-error outcome — the thrown `… not configured` is converted by
the handler's outer catch to 500 `Internal server error` — which differs
from the delivery-failure response text `Failed to send message`, and no
outbound call of any kind is made. -/
theorem c9_missing_config_distinct_no_call
    (http : OutboundCall → Except String HttpResponse) (env : WorkerEnv)
    (hs : List (String × String)) (raw : String) (v : Json)
    (h1 : jsonParse raw = Except.ok v)
    (h2 : isConfirmationRequest v = false)
    (h3 : envTruthy env.TELEGRAM_BOT_TOKEN = false ∨ envTruthy env.TELEGRAM_CHAT_ID = false) :
    fetchHandler http env ⟨"POST", hs, raw⟩ = (⟨"Internal server error", 500⟩, []) ∧
    (fetchHandler http env ⟨"POST", hs, raw⟩).1.body ≠ "Failed to send message" := by
  have hmain : fetchHandler http env ⟨"POST", hs, raw⟩ = (⟨"Internal server error", 500⟩, []) := by
    rw [fetchHandler_parse_ok http env hs raw v h1]
    unfold processParsed
    rw [h2, if_neg (by simp)]
    unfold sendAlarm
    rcases h3 with h | h
    · rw [h]
      rfl
    · cases htok : envTruthy env.TELEGRAM_BOT_TOKEN with
      | false => rfl
      | true =>
        rw [h]
        rfl
  refine ⟨hmain, ?_⟩
  rw [hmain]
  decide

/-- C9 witness: a missing bot token with an ordinary `{}` body. -/
theorem c9_witness :
    fetchHandler httpAllOk ⟨none, some "42"⟩ ⟨"POST", [], "\x7b\x7d"⟩
      = (⟨"Internal server error", 500⟩, []) ∧
    (fetchHandler httpAllOk ⟨none, some "42"⟩ ⟨"POST", [], "\x7b\x7d"⟩).1.body
      ≠ "Failed to send message" :=
  c9_missing_config_distinct_no_call httpAllOk ⟨none, some "42"⟩ [] "\x7b\x7d" (Json.obj [])
    (by rfl) (by rfl) (Or.inl (by rfl))

/-- A POST body naming the confirmation event type next to ordinary alarm
fields. -/
def c10Body : String :=
  "\x7b\"eventType\":\"com.oraclecloud.ons.subscriptionconfirmation\",\"type\":\"OK_TO_FIRING\"\x7d"

/-- The parsed value of `c10Body`. -/
def c10Val : Json :=
  Json.obj [("eventType", Json.str subscriptionEventType),
            ("type", Json.str "OK_TO_FIRING")]

/-- C10: whenever the parsed body's `eventType` is the subscription
confirmation constant, the handler takes the confirmation branch and returns
there: whatever alarm fields are also present, no chat-delivery POST is ever
among the outbound calls (every confirmation outcome performs at most the
one GET). -/
theorem c10_confirmation_no_telegram
    (http : OutboundCall → Except String HttpResponse) (env : WorkerEnv)
    (hs : List (String × String)) (raw : String) (v : Json)
    (h1 : jsonParse raw = Except.ok v)
    (h2 : getMember v "eventType" = some (Json.str subscriptionEventType)) :
    (fetchHandler http env ⟨"POST", hs, raw⟩).2.filter isPostCall = [] := by
  have hconf := isConfirmation_of_eventType v h2
  rw [fetchHandler_parse_ok http env hs raw v h1]
  unfold processParsed
  rw [hconf, if_pos rfl]
  cases hu : getTruthyMember v "confirmationUrl" with
  | some u =>
    dsimp only
    cases hc : http (OutboundCall.get (jsToString u) "CloudflareWorker/1.0") with
    | ok r =>
      cases r with
      | mk b => cases b <;> rfl
    | error e => rfl
  | none => rfl

/-- C10 witness: a confirmation-typed body that also carries an alarm
`type` field produces no chat-delivery POST. -/
theorem c10_witness :
    (fetchHandler httpAllOk envFull ⟨"POST", [], c10Body⟩).2.filter isPostCall = [] :=
  c10_confirmation_no_telegram httpAllOk envFull [] c10Body c10Val (by rfl) (by rfl)
